import Mathlib

/-!
# Verification of the svgear rendering pipeline

A shallow embedding in Lean 4 of the core of the `svgear` repository:
the content-addressed SVG cache (`SvgManager` in `src/manager.rs`), the
RPC dispatcher (`src/rpc.rs`), the node helper-process supervisor
(`src/painter/node_server.rs`) and the asynchronous job queue of the
emacs module (`emacs/src/async_gear.rs`).

Rust `FxHashMap<String, V>` is modelled as an association list with
replace-on-insert semantics; SHA-256 (the `sha2` crate) is implemented
in full over `Nat`; the external `resvg`/`tiny_skia` rasterization
library and the external painter subprocess are modelled as abstract
deterministic function parameters, since the repository treats them as
external collaborators.
-/

set_option maxRecDepth 100000

deriving instance DecidableEq for Except

namespace Svgear

/-! ## Finite string-keyed maps (model of `FxHashMap`) -/

/-- Lookup in an association list; models `HashMap::get`. -/
def mapGet {α : Type} (m : List (String × α)) (k : String) : Option α :=
  match m with
  | [] => none
  | (k0, v0) :: rest => if k0 = k then some v0 else mapGet rest k

/-- Insert into an association list, replacing the value when the key is
already present; models `HashMap::insert`. -/
def mapInsert {α : Type} (m : List (String × α)) (k : String) (v : α) : List (String × α) :=
  match m with
  | [] => [(k, v)]
  | (k0, v0) :: rest => if k0 = k then (k, v) :: rest else (k0, v0) :: mapInsert rest k v

/-! ## SHA-256 over `Nat` (model of the `sha2` crate used by `generate_id`)

Machine 32-bit words are `Nat`s kept below `2^32` by explicit reduction. -/

/-- Reduce to a 32-bit word. -/
def w32 (x : Nat) : Nat := x % 4294967296

/-- Right rotation of a 32-bit word `x < 2^32`, written arithmetically:
the low `n` bits wrap around to the top while the rest shift down. -/
def rotr (x n : Nat) : Nat := w32 (x / 2 ^ n + x * 2 ^ (32 - n))

/-- SHA-256 choice function `Ch`; the complement of `x` is its xor with
the all-ones word. -/
def chFn (x y z : Nat) : Nat := (x &&& y) ^^^ ((4294967295 ^^^ x) &&& z)

/-- SHA-256 majority function `Maj`. -/
def majFn (x y z : Nat) : Nat := (x &&& y) ^^^ ((x &&& z) ^^^ (y &&& z))

/-- SHA-256 big sigma 0 (rotations by 2, 13, 22). -/
def bSig0 (x : Nat) : Nat := (rotr x 2) ^^^ ((rotr x 13) ^^^ (rotr x 22))

/-- SHA-256 big sigma 1 (rotations by 6, 11, 25). -/
def bSig1 (x : Nat) : Nat := (rotr x 6) ^^^ ((rotr x 11) ^^^ (rotr x 25))

/-- SHA-256 small sigma 0 (rotations by 7 and 18, shift by 3). -/
def sSig0 (x : Nat) : Nat := (rotr x 7) ^^^ ((rotr x 18) ^^^ (x / 8))

/-- SHA-256 small sigma 1 (rotations by 17 and 19, shift by 10). -/
def sSig1 (x : Nat) : Nat := (rotr x 17) ^^^ ((rotr x 19) ^^^ (x / 1024))

/-- The 64 SHA-256 round constants of FIPS 180-4 (the fractional parts of
the cube roots of the first 64 primes), in decimal. -/
def K64 : List Nat :=
  [1116352408, 1899447441, 3049323471, 3921009573, 961987163, 1508970993, 2453635748,
   2870763221, 3624381080, 310598401, 607225278, 1426881987, 1925078388, 2162078206,
   2614888103, 3248222580, 3835390401, 4022224774, 264347078, 604807628, 770255983,
   1249150122, 1555081692, 1996064986, 2554220882, 2821834349, 2952996808, 3210313671,
   3336571891, 3584528711, 113926993, 338241895, 666307205, 773529912, 1294757372,
   1396182291, 1695183700, 1986661051, 2177026350, 2456956037, 2730485921, 2820302411,
   3259730800, 3345764771, 3516065817, 3600352804, 4094571909, 275423344, 430227734,
   506948616, 659060556, 883997877, 958139571, 1322822218, 1537002063, 1747873779,
   1955562222, 2024104815, 2227730452, 2361852424, 2428436474, 2756734187, 3204031479,
   3329325298]

/-- The SHA-256 initial hash state, as the eight working variables. -/
structure Hash8 where
  a : Nat
  b : Nat
  c : Nat
  d : Nat
  e : Nat
  f : Nat
  g : Nat
  hh : Nat
deriving Repr, DecidableEq

/-- The SHA-256 initial hash value of FIPS 180-4 (the fractional parts of
the square roots of the first 8 primes), in decimal. -/
def initH : Hash8 :=
  ⟨1779033703, 3144134277, 1013904242, 2773480762,
   1359893119, 2600822924, 528734635, 1541459225⟩

/-- Pad a byte message per SHA-256: append `0x80`, zero bytes to 56 mod 64,
then the bit length as eight big-endian bytes. -/
def padBytes (msg : List Nat) : List Nat :=
  let L := msg.length
  let k := (119 - L % 64) % 64
  let bits := 8 * L
  msg ++ [128] ++ List.replicate k 0 ++
    [(bits >>> 56) % 256, (bits >>> 48) % 256, (bits >>> 40) % 256, (bits >>> 32) % 256,
     (bits >>> 24) % 256, (bits >>> 16) % 256, (bits >>> 8) % 256, bits % 256]

/-- Group bytes into big-endian 32-bit words. -/
def bytesToWords : List Nat → List Nat
  | a :: b :: c :: d :: rest => (a * 16777216 + b * 65536 + c * 256 + d) :: bytesToWords rest
  | _ => []

/-- Split a word list into 16-word blocks (a padded message is always a
whole number of blocks, so the final catch-all is never hit on real input). -/
def chunk16 : List Nat → List (List Nat)
  | w0 :: w1 :: w2 :: w3 :: w4 :: w5 :: w6 :: w7 ::
    w8 :: w9 :: w10 :: w11 :: w12 :: w13 :: w14 :: w15 :: rest =>
      [w0, w1, w2, w3, w4, w5, w6, w7, w8, w9, w10, w11, w12, w13, w14, w15] :: chunk16 rest
  | _ => []

/-- One message-schedule extension step: append word `W[n]` computed from
`W[n-2]`, `W[n-7]`, `W[n-15]`, `W[n-16]`. -/
def extendStep (w : List Nat) : List Nat :=
  let n := w.length
  w ++ [w32 (sSig1 (w.getD (n - 2) 0) + w.getD (n - 7) 0 + sSig0 (w.getD (n - 15) 0) +
             w.getD (n - 16) 0)]

/-- Iterate the message-schedule extension. -/
def extendN : Nat → List Nat → List Nat
  | 0, w => w
  | n + 1, w => extendN n (extendStep w)

/-- One SHA-256 compression round with round constant `k` and schedule word `w`. -/
def compressRound (st : Hash8) (k w : Nat) : Hash8 :=
  let t1 := w32 (st.hh + bSig1 st.e + chFn st.e st.f st.g + k + w)
  let t2 := w32 (bSig0 st.a + majFn st.a st.b st.c)
  ⟨w32 (t1 + t2), st.a, st.b, st.c, w32 (st.d + t1), st.e, st.f, st.g⟩

/-- Compress one 16-word block into the running hash state. -/
def compressBlock (st : Hash8) (block : List Nat) : Hash8 :=
  let sched := extendN 48 block
  let fin := (K64.zip sched).foldl (fun s kw => compressRound s kw.1 kw.2) st
  ⟨w32 (st.a + fin.a), w32 (st.b + fin.b), w32 (st.c + fin.c), w32 (st.d + fin.d),
   w32 (st.e + fin.e), w32 (st.f + fin.f), w32 (st.g + fin.g), w32 (st.hh + fin.hh)⟩

/-- The SHA-256 digest of a byte message, as eight 32-bit words. -/
def sha256Words (msg : List Nat) : List Nat :=
  let st := (chunk16 (bytesToWords (padBytes msg))).foldl compressBlock initH
  [st.a, st.b, st.c, st.d, st.e, st.f, st.g, st.hh]

/-- Lowercase hexadecimal digit. -/
def hexDigit (n : Nat) : Char := if n < 10 then Char.ofNat (48 + n) else Char.ofNat (87 + n)

/-- Two lowercase hex digits of a byte. -/
def hexByteChars (b : Nat) : List Char := [hexDigit (b / 16), hexDigit (b % 16)]

/-- Eight lowercase hex digits of a 32-bit word, big-endian. -/
def wordHexChars (w : Nat) : List Char :=
  hexByteChars ((w >>> 24) % 256) ++ hexByteChars ((w >>> 16) % 256) ++
  hexByteChars ((w >>> 8) % 256) ++ hexByteChars (w % 256)

/-- The lowercase-hex SHA-256 digest string of a byte message; models
`format!("\x7b:x\x7d", hasher.finalize())` on the `sha2` digest. -/
def sha256Hex (msg : List Nat) : String :=
  String.mk ((sha256Words msg).foldr (fun w acc => wordHexChars w ++ acc) [])

/-- UTF-8 encoding of one character, as bytes. -/
def utf8Encode (c : Char) : List Nat :=
  let n := c.toNat
  if n < 128 then [n]
  else if n < 2048 then [192 + n / 64, 128 + n % 64]
  else if n < 65536 then [224 + n / 4096, 128 + (n / 64) % 64, 128 + n % 64]
  else [240 + n / 262144, 128 + (n / 4096) % 64, 128 + (n / 64) % 64, 128 + n % 64]

/-- The UTF-8 bytes of a string; models Rust `str::as_bytes`. -/
def strBytes (s : String) : List Nat := (s.data.map utf8Encode).flatten

/-- The first `n` characters of a string. The Rust source slices the first
16 BYTES of the digest string; the digest string is pure ASCII hex, so byte
slicing and character slicing coincide. -/
def strTake (s : String) (n : Nat) : String := String.mk (s.data.take n)

/-- `SvgManager::generate_id` (`src/manager.rs:83`): the first 16 hex
characters of the SHA-256 digest of the SVG bytes. -/
def generate_id (svg_data : String) : String :=
  strTake (sha256Hex (strBytes svg_data)) 16

/-! ## The SVG manager (`src/manager.rs`)

`resvg`/`tiny_skia` (SVG parsing, pixmap allocation, painting, PNG
encoding) are external libraries; the spec treats them as external
collaborators.  They are deterministic, so they are modelled as abstract
function parameters gathered in `RasterEnv`. -/

/-- Bitmap structure holding rendered image data and dimensions
(`Bitmap` in `src/manager.rs`). -/
structure Bitmap where
  data : List Nat
  width : Nat
  height : Nat
deriving Repr, DecidableEq

/-- A request to render an SVG (`RenderRequest` in `src/manager.rs`). -/
structure RenderRequest where
  svg_data : String
  width : Option Nat
  height : Option Nat
  id : Option String
deriving Repr, DecidableEq

/-- Response from rendering an SVG (`RenderResponse` in `src/manager.rs`). -/
structure RenderResponse where
  id : String
  cached : Bool
  bitmap : Bitmap
deriving Repr, DecidableEq

/-- A request to retrieve a rendered bitmap (`GetBitmapRequest`). -/
structure GetBitmapRequest where
  id : String
deriving Repr, DecidableEq

/-- Response containing a rendered bitmap (`GetBitmapResponse`). -/
structure GetBitmapResponse where
  id : String
  bitmap : Bitmap
deriving Repr, DecidableEq

/-- The typed failures of `SvgManager`; each constructor corresponds to one
`anyhow!`/propagated error site in `src/manager.rs`. -/
inductive MErr where
  /-- `anyhow!("SVG not found")` in `render_svg`. -/
  | svgNotFound
  /-- A `usvg::Tree::from_str` parse failure, with its message. -/
  | treeParse (e : String)
  /-- `anyhow!("Failed to create pixmap")` when `tiny_skia::Pixmap::new` fails. -/
  | pixmapCreate
  /-- A `Pixmap::encode_png` failure, with its message. -/
  | pngEncode (e : String)
  /-- `anyhow!("Bitmap not found after rendering")` in `process_render_request`. -/
  | bitmapNotFoundAfterRender
  /-- `anyhow!("Bitmap not found")` in `process_get_bitmap_request`. -/
  | bitmapNotFound
deriving Repr, DecidableEq

/-- The display string of each error, as produced by `anyhow` at the RPC
boundary. -/
def MErr.msg : MErr → String
  | .svgNotFound => "SVG not found"
  | .treeParse e => e
  | .pixmapCreate => "Failed to create pixmap"
  | .pngEncode e => e
  | .bitmapNotFoundAfterRender => "Bitmap not found after rendering"
  | .bitmapNotFound => "Bitmap not found"

/-- Abstract model of the external `resvg`/`tiny_skia` rasterization
library used by `render_svg`.  All three functions are deterministic,
matching the libraries. -/
structure RasterEnv where
  /-- `usvg::Tree::from_str` followed by `tree.size()`: the native
  width/height of the parsed SVG, or a parse-error message.  A `usvg`
  size is always strictly positive; its f32 components are modelled as
  naturals (the granularity at which the dimension claims speak). -/
  parse : String → Except String (Nat × Nat)
  /-- Whether `tiny_skia::Pixmap::new(w, h)` succeeds. -/
  pixmapOk : Nat → Nat → Bool
  /-- `resvg::render` into the pixmap followed by `encode_png`: the PNG
  bytes for the given SVG at the given target size, or an encode error. -/
  encodePng : String → Nat → Nat → Except String (List Nat)

/-- The target-dimension resolution of `render_svg`
(`src/manager.rs:120-131`).  The source computes
`(w as f32 * (origH / origW)) as u32`; with the f32 arithmetic taken as
exact, `w * (origH / origW)` equals `(w * origH) / origW` and the
truncating `as u32` cast of the non-negative result is natural-number
division rounded toward zero. -/
def resolveSize (origW origH : Nat) (width height : Option Nat) : Nat × Nat :=
  match width, height with
  | some w, some h => (w, h)
  | some w, none => (w, w * origH / origW)
  | none, some h => (h * origW / origH, h)
  | none, none => (origW, origH)

/-- The SVG manager state (`SvgManager` in `src/manager.rs`): the SVG
store and the bitmap store. -/
structure SvgManager where
  svgs : List (String × String)
  bitmaps : List (String × Bitmap)
deriving Repr, DecidableEq

/-- `SvgManager::new`. -/
def SvgManager.new : SvgManager := ⟨[], []⟩

/-- `SvgManager::store_svg` (`src/manager.rs:90-94`): derive the id if no
custom id is given, insert the SVG text, and return the id. -/
def store_svg (m : SvgManager) (svg_data : String) (custom_id : Option String) :
    String × SvgManager :=
  let id := custom_id.getD (generate_id svg_data)
  (id, { m with svgs := mapInsert m.svgs id svg_data })

/-- `SvgManager::get_svg`. -/
def get_svg (m : SvgManager) (id : String) : Option String := mapGet m.svgs id

/-- `SvgManager::render_svg` (`src/manager.rs:102-154`).  The state is
returned alongside the result; the bitmap store is only written on the
success path, exactly as in the source. -/
def render_svg (env : RasterEnv) (m : SvgManager) (id : String)
    (width height : Option Nat) : Except MErr (Nat × Nat) × SvgManager :=
  match get_svg m id with
  | none => (.error .svgNotFound, m)
  | some svg_data =>
    match env.parse svg_data with
    | .error e => (.error (.treeParse e), m)
    | .ok (origW, origH) =>
      let (target_width, target_height) := resolveSize origW origH width height
      if env.pixmapOk target_width target_height then
        match env.encodePng svg_data target_width target_height with
        | .error e => (.error (.pngEncode e), m)
        | .ok png_data =>
          (.ok (target_width, target_height),
           { m with bitmaps := mapInsert m.bitmaps id ⟨png_data, target_width, target_height⟩ })
      else (.error .pixmapCreate, m)

/-- `SvgManager::get_bitmap`. -/
def get_bitmap (m : SvgManager) (id : String) : Option Bitmap := mapGet m.bitmaps id

/-- `SvgManager::process_render_request` (`src/manager.rs:162-193`).
Partial mutations (the store of a new SVG) persist even when the
subsequent render fails, as with `&mut self` in the source. -/
def process_render_request (env : RasterEnv) (m : SvgManager) (request : RenderRequest) :
    Except MErr RenderResponse × SvgManager :=
  let id := request.id.getD (generate_id request.svg_data)
  let cached := (get_svg m id).isSome
  let m1 := if cached then m else (store_svg m request.svg_data (some id)).2
  match render_svg env m1 id request.width request.height with
  | (.error e, m2) => (.error e, m2)
  | (.ok _, m2) =>
    match get_bitmap m2 id with
    | none => (.error .bitmapNotFoundAfterRender, m2)
    | some bitmap => (.ok { id := id, cached := cached, bitmap := bitmap }, m2)

/-- `SvgManager::process_get_bitmap_request` (`src/manager.rs:196-212`);
read-only. -/
def process_get_bitmap_request (m : SvgManager) (request : GetBitmapRequest) :
    Except MErr GetBitmapResponse :=
  match get_bitmap m request.id with
  | none => .error .bitmapNotFound
  | some bitmap => .ok { id := request.id, bitmap := bitmap }

/-! ## The RPC dispatcher (`src/rpc.rs`)

The warp transport and serde deserialization are external collaborators.
An incoming `serde_json::Value` is modelled by `RawRequest`: the
`method`/`id` accessor chains `request.get(..).and_then(|v| v.as_str())`
become `Option String` fields (`none` covers both a missing field and a
non-string value), and the raw `params` value keeps an abstract type `P`
together with one decoder per method (`DecodeEnv`), modelling
`serde_json::from_value`.  The painter (`Painter::paint`, an external
subprocess exchange) is modelled as an abstract deterministic function. -/

/-- The kind of content to paint (`PaintType` in `src/painter.rs`). -/
inductive PaintType where
  | inlineTeX
  | equation
  | mermaid
deriving Repr, DecidableEq

/-- Parameters of a paint operation (`PaintParams` in `src/painter.rs`). -/
structure PaintParams where
  ty : PaintType
  content : String
deriving Repr, DecidableEq

/-- Abstract model of `Painter::paint`: markup in, SVG text (or an error
message) out. -/
structure PainterEnv where
  paint : PaintParams → Except String String

/-- Parameters for RenderToBitmap (`RenderToBitmapParams` in `src/rpc.rs`). -/
structure RenderToBitmapParams where
  paint_params : PaintParams
  width : Option Nat
  height : Option Nat
deriving Repr, DecidableEq

/-- The method-specific success payloads of the four RPC handlers. -/
inductive RpcResult where
  /-- `RenderSvg` returns a `RenderResponse`. -/
  | render (r : RenderResponse)
  /-- `GetBitmap` returns a `GetBitmapResponse`. -/
  | getBmp (r : GetBitmapResponse)
  /-- `Paint` returns a `PaintResult \x7b svg \x7d`. -/
  | painted (svg : String)
  /-- `RenderToBitmap` returns a `GetBitmapResponse`. -/
  | renderedToBitmap (r : GetBitmapResponse)
deriving Repr, DecidableEq

/-- The RPC response envelope (`RpcResponse` in `src/rpc.rs`), with the
method-specific payload collapsed into the sum `RpcResult`. -/
structure RpcResponse where
  result : Option RpcResult
  error : Option String
  id : Option String
deriving Repr, DecidableEq

/-- An incoming `serde_json::Value` RPC request, as accessed by
`handle_rpc`: the string values of the `method` and `id` fields (if
present and strings) and the raw `params` value of abstract type `P`. -/
structure RawRequest (P : Type) where
  method : Option String
  id : Option String
  params : P

/-- Per-method `serde_json::from_value` decoders for the raw `params`
value, modelling serde; a decoder is a deterministic function. -/
structure DecodeEnv (P : Type) where
  decRender : P → Except String RenderRequest
  decGetBitmap : P → Except String GetBitmapRequest
  decPaint : P → Except String PaintParams
  decRenderToBitmap : P → Except String RenderToBitmapParams

/-- `handle_render_svg` (`src/rpc.rs:93-110`). -/
def handle_render_svg (env : RasterEnv) (params : RenderRequest) (m : SvgManager)
    (request_id : Option String) : RpcResponse × SvgManager :=
  match process_render_request env m params with
  | (.ok response, m1) => ({ result := some (.render response), error := none, id := request_id }, m1)
  | (.error e, m1) =>
    ({ result := none, error := some ("Error rendering SVG: " ++ e.msg), id := request_id }, m1)

/-- `handle_get_bitmap` (`src/rpc.rs:113-130`). -/
def handle_get_bitmap (params : GetBitmapRequest) (m : SvgManager)
    (request_id : Option String) : RpcResponse × SvgManager :=
  match process_get_bitmap_request m params with
  | .ok response => ({ result := some (.getBmp response), error := none, id := request_id }, m)
  | .error e =>
    ({ result := none, error := some ("Error getting bitmap: " ++ e.msg), id := request_id }, m)

/-- `handle_paint` (`src/rpc.rs:133-150`). -/
def handle_paint (penv : PainterEnv) (params : PaintParams) (m : SvgManager)
    (request_id : Option String) : RpcResponse × SvgManager :=
  match penv.paint params with
  | .ok svg => ({ result := some (.painted svg), error := none, id := request_id }, m)
  | .error e => ({ result := none, error := some ("Error painting: " ++ e), id := request_id }, m)

/-- `handle_render_to_bitmap` (`src/rpc.rs:153-204`): paint the markup,
feed the intermediate SVG through `process_render_request` with no custom
id, then fetch the bitmap with `process_get_bitmap_request`. -/
def handle_render_to_bitmap (renv : RasterEnv) (penv : PainterEnv)
    (params : RenderToBitmapParams) (m : SvgManager) (request_id : Option String) :
    RpcResponse × SvgManager :=
  match penv.paint params.paint_params with
  | .error e => ({ result := none, error := some ("Error painting: " ++ e), id := request_id }, m)
  | .ok paint_result =>
    let render_request : RenderRequest :=
      { svg_data := paint_result, width := params.width, height := params.height, id := none }
    match process_render_request renv m render_request with
    | (.error e, m1) =>
      ({ result := none, error := some ("Error rendering SVG: " ++ e.msg), id := request_id }, m1)
    | (.ok render_response, m1) =>
      match process_get_bitmap_request m1 { id := render_response.id } with
      | .error e =>
        ({ result := none, error := some ("Error getting bitmap: " ++ e.msg), id := request_id }, m1)
      | .ok bitmap_response =>
        ({ result := some (.renderedToBitmap bitmap_response), error := none, id := request_id }, m1)

/-- `handle_rpc` (`src/rpc.rs:207-314`): parse the method name (an
unrecognized or missing method yields the unknown-method error envelope,
still echoing the id), extract the request id, decode the params for the
selected method (a decode failure yields the invalid-parameters
envelope), and dispatch to the matching handler. -/
def handle_rpc {P : Type} (d : DecodeEnv P) (renv : RasterEnv) (penv : PainterEnv)
    (request : RawRequest P) (m : SvgManager) : RpcResponse × SvgManager :=
  match request.method with
  | some "RenderSvg" =>
    (match d.decRender request.params with
     | .ok p => handle_render_svg renv p m request.id
     | .error e =>
       ({ result := none, error := some ("Invalid parameters: " ++ e), id := request.id }, m))
  | some "GetBitmap" =>
    (match d.decGetBitmap request.params with
     | .ok p => handle_get_bitmap p m request.id
     | .error e =>
       ({ result := none, error := some ("Invalid parameters: " ++ e), id := request.id }, m))
  | some "Paint" =>
    (match d.decPaint request.params with
     | .ok p => handle_paint penv p m request.id
     | .error e =>
       ({ result := none, error := some ("Invalid parameters: " ++ e), id := request.id }, m))
  | some "RenderToBitmap" =>
    (match d.decRenderToBitmap request.params with
     | .ok p => handle_render_to_bitmap renv penv p m request.id
     | .error e =>
       ({ result := none, error := some ("Invalid parameters: " ++ e), id := request.id }, m))
  | _ => ({ result := none, error := some "Unknown method", id := request.id }, m)

/-- The manual markup-to-raster pipeline: call the `Paint` handler, feed
the intermediate SVG from its envelope into the `RenderSvg` handler with
the same dimensions and no custom id, then feed the resulting id into the
`GetBitmap` handler.  Used to compare against `handle_render_to_bitmap`. -/
def manual_render_to_bitmap (renv : RasterEnv) (penv : PainterEnv) (pp : PaintParams)
    (width height : Option Nat) (m : SvgManager) : RpcResponse × SvgManager :=
  let step1 := handle_paint penv pp m none
  match step1.1.result with
  | some (.painted svg) =>
    let step2 := handle_render_svg renv
      { svg_data := svg, width := width, height := height, id := none } step1.2 none
    (match step2.1.result with
     | some (.render rr) => handle_get_bitmap { id := rr.id } step2.2 none
     | _ => step2)
  | _ => step1

/-- The bitmap carried by a response envelope, when its payload has one. -/
def RpcResponse.bitmapOf (r : RpcResponse) : Option Bitmap :=
  match r.result with
  | some (.render rr) => some rr.bitmap
  | some (.getBmp br) => some br.bitmap
  | some (.renderedToBitmap br) => some br.bitmap
  | _ => none

/-! ## The node helper-process supervisor (`src/painter/node_server.rs`)

The operating-system effects of `ensure_process_started` (spawning the
child, taking its stderr pipe, reading one line from it) are modelled as
the outcome parameters gathered in `NodeEnv`; the supervisor state is
whether a child-process handle is currently stored. -/

/-- Does `pat` occur at the head of `l`? -/
def leadsWith : List Char → List Char → Bool
  | [], _ => true
  | _ :: _, [] => false
  | a :: as, b :: bs => a == b && leadsWith as bs

/-- Does `pat` occur anywhere in `l`? -/
def occursIn (pat l : List Char) : Bool :=
  match l with
  | [] => leadsWith pat []
  | _ :: t => leadsWith pat l || occursIn pat t

/-- `str::contains` on string slices. -/
def strContains (hay needle : String) : Bool := occursIn needle.data hay.data

/-- Outcomes of the operating-system interactions performed while starting
the helper process. -/
structure NodeEnv where
  /-- Whether `Command::spawn` succeeds. -/
  spawnOk : Bool
  /-- Whether `child.stderr.take()` yields a pipe. -/
  stderrPiped : Bool
  /-- The outcome of `read_line` on the stderr pipe: the line read, or an
  I/O error message. -/
  readLineResult : Except String String

/-- The supervisor state: whether a child-process handle is stored in
`self.process` (`Some` vs `None`). -/
structure NodeState where
  process : Bool
deriving Repr, DecidableEq

/-- `NodeServer::ensure_process_started` (`src/painter/node_server.rs:59-95`).
A stored process makes the call a no-op; otherwise the child is spawned
and the first stderr line is checked for the acknowledgment phrase — but
only when `read_line` returns `Ok`, mirroring the
`if reader.read_line(&mut line).is_ok()` guard in the source. -/
def ensure_process_started (env : NodeEnv) (st : NodeState) : Except String NodeState :=
  if st.process then .ok st
  else if !env.spawnOk then .error "Failed to start Node.js server process"
  else if env.stderrPiped then
    match env.readLineResult with
    | .ok line =>
      if strContains line "Running in stdio mode" then .ok { process := true }
      else .error ("Unexpected output from Node.js server: " ++ line)
    | .error _ => .ok { process := true }
  else .ok { process := true }

/-! ## The emacs-module job queue (`emacs/src/async_gear.rs`)

`AsyncGear::join_all` drains a tokio `JoinSet` whose completed handles
arrive in completion order.  A completed handle is
`Result<Result<CallbackWithArg>, JoinError>`: the outer layer is a
panic/abort (`JoinError`), the inner one the job's own failure.  A
handle is modelled as `Except String (Except String Nat)` with the
continuation token (the elisp callback of `CallbackWithArg`) as a `Nat`;
`join_all` is modelled on the completion-ordered list of handles.  The
model returns the list of tokens whose callbacks were resolved, plus the
error that aborted the drain, if any — `let h = h??;` propagates the
first failure out of the loop. -/

/-- `AsyncGear::join_all` (`emacs/src/async_gear.rs:116-124`) on the
completion-ordered list of finished handles: resolve each successful
job's continuation in turn; a failed handle aborts the drain with its
error, leaving the remaining handles unresolved. -/
def join_all (handles : List (Except String (Except String Nat))) : List Nat × Option String :=
  match handles with
  | [] => ([], none)
  | h :: rest =>
    match h with
    | .error e => ([], some e)
    | .ok (.error e) => ([], some e)
    | .ok (.ok t) =>
      let r := join_all rest
      (t :: r.1, r.2)

/-- A completed handle of a successful job carrying token `t`. -/
def okHandle (t : Nat) : Except String (Except String Nat) := .ok (.ok t)

/-- The token carried by a successful completed handle (`0` otherwise). -/
def tokOf : Except String (Except String Nat) → Nat
  | .ok (.ok t) => t
  | _ => 0

/-! ## Concrete instantiations used in witnesses and examples -/

/-- A concrete rasterizer: every SVG parses with native size 2×1, every
pixmap allocation succeeds, and the PNG bytes record the target size. -/
def testEnv : RasterEnv := ⟨fun _ => .ok (2, 1), fun _ _ => true, fun _ w h => .ok [w, h]⟩

/-- A concrete rasterizer whose every SVG has native size 100×50 (the
sizes used by the spec's aspect-ratio examples). -/
def env100x50 : RasterEnv := ⟨fun _ => .ok (100, 50), fun _ _ => true, fun _ w h => .ok [w, h]⟩

/-- A manager holding one SVG under id `"i"` and no bitmaps. -/
def mgr100 : SvgManager := ⟨[("i", "svg")], []⟩

/-- A concrete painter that renders any markup to a fixed SVG. -/
def testPainter : PainterEnv := ⟨fun _ => .ok "<svg/>"⟩

/-- A concrete decoder environment over unit params whose decoders all
fail, exercising the invalid-parameters paths. -/
def testDecode : DecodeEnv Unit :=
  ⟨fun _ => .error "missing field", fun _ => .error "missing field",
   fun _ => .error "missing field", fun _ => .error "missing field"⟩

/-! # Theorems -/

/-! ## Map lemmas -/

theorem mapGet_insert_self {α : Type} (l : List (String × α)) (k : String) (v : α) :
    mapGet (mapInsert l k v) k = some v := by
  induction l with
  | nil => simp [mapInsert, mapGet]
  | cons p rest ih =>
    obtain ⟨k0, v0⟩ := p
    by_cases h : k0 = k
    · simp [mapInsert, h, mapGet]
    · simp [mapInsert, h, mapGet, ih]

theorem mapInsert_of_get_eq {α : Type} (l : List (String × α)) (k : String) (v : α)
    (h : mapGet l k = some v) : mapInsert l k v = l := by
  induction l with
  | nil => simp [mapGet] at h
  | cons p rest ih =>
    obtain ⟨k0, v0⟩ := p
    by_cases hk : k0 = k
    · simp only [mapGet, if_pos hk] at h
      obtain rfl : v0 = v := Option.some_injective _ h
      simp [mapInsert, if_pos hk, hk]
    · simp only [mapGet, if_neg hk] at h
      simp [mapInsert, if_neg hk, ih h]

/-! ## State-shape lemmas for `render_svg` and `process_render_request` -/

/-- `render_svg` never touches the SVG store. -/
theorem render_svg_svgs (env : RasterEnv) (m : SvgManager) (id : String) (w h : Option Nat) :
    ((render_svg env m id w h).2).svgs = m.svgs := by
  unfold render_svg
  repeat' split
  all_goals rfl

/-- The state left by `process_render_request` is the state left by
`render_svg` run on the post-store manager. -/
theorem prr_state (env : RasterEnv) (m : SvgManager) (req : RenderRequest) :
    (process_render_request env m req).2 =
      (render_svg env
        (if (get_svg m (req.id.getD (generate_id req.svg_data))).isSome then m
         else (store_svg m req.svg_data (some (req.id.getD (generate_id req.svg_data)))).2)
        (req.id.getD (generate_id req.svg_data)) req.width req.height).2 := by
  simp only [process_render_request]
  rcases h : render_svg env
      (if (get_svg m (req.id.getD (generate_id req.svg_data))).isSome then m
       else (store_svg m req.svg_data (some (req.id.getD (generate_id req.svg_data)))).2)
      (req.id.getD (generate_id req.svg_data)) req.width req.height with ⟨res, m2⟩
  cases res with
  | error e => simp [h]
  | ok p =>
    simp only [h]
    rcases hb : get_bitmap m2 (req.id.getD (generate_id req.svg_data)) with _ | bmp <;> simp [hb]

/-- The SVG store after `process_render_request`: unchanged when the id
was already present, extended by the request's SVG text otherwise. -/
theorem prr_svgs (env : RasterEnv) (m : SvgManager) (req : RenderRequest) :
    ((process_render_request env m req).2).svgs =
      (if (get_svg m (req.id.getD (generate_id req.svg_data))).isSome then m.svgs
       else mapInsert m.svgs (req.id.getD (generate_id req.svg_data)) req.svg_data) := by
  rw [prr_state, render_svg_svgs]
  by_cases hc : (get_svg m (req.id.getD (generate_id req.svg_data))).isSome <;>
    simp [hc, store_svg]

/-- Whenever `process_render_request` succeeds, the `cached` flag equals
the pre-call presence of the resolved id in the SVG store. -/
theorem prr_cached_ne (env : RasterEnv) (m : SvgManager) (req : RenderRequest) :
    (process_render_request env m req).1.map RenderResponse.cached
      ≠ Except.ok (!(get_svg m (req.id.getD (generate_id req.svg_data))).isSome) := by
  simp only [process_render_request]
  rcases h : render_svg env
      (if (get_svg m (req.id.getD (generate_id req.svg_data))).isSome then m
       else (store_svg m req.svg_data (some (req.id.getD (generate_id req.svg_data)))).2)
      (req.id.getD (generate_id req.svg_data)) req.width req.height with ⟨res, m2⟩
  cases res with
  | error e => simp [h, Except.map]
  | ok p =>
    simp only [h]
    rcases hb : get_bitmap m2 (req.id.getD (generate_id req.svg_data)) with _ | bmp
    · simp [hb, Except.map]
    · rcases hc : (get_svg m (req.id.getD (generate_id req.svg_data))).isSome <;>
        simp [hb, hc, Except.map]

/-! ## Envelope-shape lemmas for the four RPC handlers -/

theorem handle_render_svg_envelope (env : RasterEnv) (p : RenderRequest) (m : SvgManager)
    (rid : Option String) :
    ((handle_render_svg env p m rid).1.result.isSome = ((handle_render_svg env p m rid).1.error).isNone)
    ∧ (handle_render_svg env p m rid).1.id = rid := by
  unfold handle_render_svg
  rcases h : process_render_request env m p with ⟨res, m1⟩
  cases res <;> simp [h]

theorem handle_get_bitmap_envelope (p : GetBitmapRequest) (m : SvgManager)
    (rid : Option String) :
    ((handle_get_bitmap p m rid).1.result.isSome = ((handle_get_bitmap p m rid).1.error).isNone)
    ∧ (handle_get_bitmap p m rid).1.id = rid := by
  unfold handle_get_bitmap
  rcases h : process_get_bitmap_request m p with e | r <;> simp [h]

theorem handle_paint_envelope (penv : PainterEnv) (p : PaintParams) (m : SvgManager)
    (rid : Option String) :
    ((handle_paint penv p m rid).1.result.isSome = ((handle_paint penv p m rid).1.error).isNone)
    ∧ (handle_paint penv p m rid).1.id = rid := by
  unfold handle_paint
  rcases h : penv.paint p with e | svg <;> simp [h]

theorem handle_render_to_bitmap_envelope (renv : RasterEnv) (penv : PainterEnv)
    (p : RenderToBitmapParams) (m : SvgManager) (rid : Option String) :
    ((handle_render_to_bitmap renv penv p m rid).1.result.isSome
        = ((handle_render_to_bitmap renv penv p m rid).1.error).isNone)
    ∧ (handle_render_to_bitmap renv penv p m rid).1.id = rid := by
  unfold handle_render_to_bitmap
  rcases hp : penv.paint p.paint_params with e | svg
  · simp [hp]
  · simp only [hp]
    rcases hr : process_render_request renv m
        { svg_data := svg, width := p.width, height := p.height, id := none } with ⟨res, m1⟩
    cases res with
    | error e => simp [hr]
    | ok rr =>
      simp only [hr]
      rcases hg : process_get_bitmap_request m1 { id := rr.id } with e | br <;> simp [hg]

/-- C6: every RPC request yields exactly one envelope with exactly one of
`result`/`error` populated and the caller's correlation id echoed back
unchanged — including on unknown-method and invalid-parameter failures,
which produce error envelopes instead of crashing. -/
theorem rpc_envelope_exactly_one {P : Type} (d : DecodeEnv P) (renv : RasterEnv)
    (penv : PainterEnv) (req : RawRequest P) (m : SvgManager) :
    ((handle_rpc d renv penv req m).1.result.isSome
        = ((handle_rpc d renv penv req m).1.error).isNone)
    ∧ (handle_rpc d renv penv req m).1.id = req.id
    ∧ handle_rpc testDecode testEnv testPainter ⟨some "Bogus", some "42", ()⟩ SvgManager.new
        = ({ result := none, error := some "Unknown method", id := some "42" }, SvgManager.new)
    ∧ handle_rpc testDecode testEnv testPainter ⟨some "RenderSvg", some "7", ()⟩ SvgManager.new
        = ({ result := none, error := some ("Invalid parameters: " ++ "missing field"),
             id := some "7" }, SvgManager.new) := by
  refine ⟨?_, ?_, by decide, by decide⟩ <;>
  · unfold handle_rpc
    split
    · rcases hd : d.decRender req.params with e | p
      · simp [hd]
      · simp only [hd]
        first
        | exact (handle_render_svg_envelope renv p m req.id).1
        | exact (handle_render_svg_envelope renv p m req.id).2
    · rcases hd : d.decGetBitmap req.params with e | p
      · simp [hd]
      · simp only [hd]
        first
        | exact (handle_get_bitmap_envelope p m req.id).1
        | exact (handle_get_bitmap_envelope p m req.id).2
    · rcases hd : d.decPaint req.params with e | p
      · simp [hd]
      · simp only [hd]
        first
        | exact (handle_paint_envelope penv p m req.id).1
        | exact (handle_paint_envelope penv p m req.id).2
    · rcases hd : d.decRenderToBitmap req.params with e | p
      · simp [hd]
      · simp only [hd]
        first
        | exact (handle_render_to_bitmap_envelope renv penv p m req.id).1
        | exact (handle_render_to_bitmap_envelope renv penv p m req.id).2
    · simp

/-- C7: the composed `RenderToBitmap` handler produces the same final
bitmap (same PNG bytes, width and height), the same final cache state,
and the same success/failure outcome as manually chaining the `Paint`,
`RenderSvg` and `GetBitmap` handlers on the intermediate SVG with the
same dimensions. -/
theorem render_to_bitmap_pipeline_equiv (renv : RasterEnv) (penv : PainterEnv)
    (pp : PaintParams) (w h : Option Nat) (m : SvgManager) (rid : Option String) :
    ((handle_render_to_bitmap renv penv ⟨pp, w, h⟩ m rid).1.bitmapOf
        = (manual_render_to_bitmap renv penv pp w h m).1.bitmapOf)
    ∧ ((handle_render_to_bitmap renv penv ⟨pp, w, h⟩ m rid).2
        = (manual_render_to_bitmap renv penv pp w h m).2)
    ∧ ((handle_render_to_bitmap renv penv ⟨pp, w, h⟩ m rid).1.result.isSome
        = (manual_render_to_bitmap renv penv pp w h m).1.result.isSome) := by
  unfold handle_render_to_bitmap manual_render_to_bitmap handle_paint handle_render_svg
    handle_get_bitmap
  rcases hp : penv.paint pp with e | svg
  · simp [hp, RpcResponse.bitmapOf]
  · simp only [hp]
    rcases hr : process_render_request renv m
        { svg_data := svg, width := w, height := h, id := none } with ⟨res, m1⟩
    cases res with
    | error e => simp [hr, RpcResponse.bitmapOf]
    | ok rr =>
      simp only [hr]
      rcases hg : process_get_bitmap_request m1 { id := rr.id } with e | br <;>
        simp [hg, RpcResponse.bitmapOf]

/-! ## Claims about the SVG store and the content id -/

/-- C1 (corrected): `store_svg` with an already-present id is not a no-op
in general — it returns the same id but overwrites the stored text
(last-writer-wins at the `store_svg` level).  What does hold: the call
returns the given id; re-storing byte-identical text under its derived id
leaves the manager unchanged; and `process_render_request` skips the
store entirely when the id is already present, so through the
render-request interface the stored SVG text is never replaced. -/
theorem store_svg_overwrite_semantics (env : RasterEnv) (m : SvgManager)
    (req : RenderRequest) (s k stored : String)
    (hself : get_svg m (generate_id s) = some s)
    (hpresent : get_svg m (req.id.getD (generate_id req.svg_data)) = some stored) :
    (store_svg m s (some k)).1 = k
    ∧ get_svg (store_svg m s (some k)).2 k = some s
    ∧ store_svg m s none = (generate_id s, m)
    ∧ ((process_render_request env m req).2).svgs = m.svgs := by
  refine ⟨rfl, ?_, ?_, ?_⟩
  · exact mapGet_insert_self m.svgs k s
  · unfold store_svg
    simp only [Option.getD]
    rw [mapInsert_of_get_eq m.svgs (generate_id s) s hself]
  · rw [prr_svgs]
    simp [hpresent]

theorem store_svg_overwrite_semantics_witness :
    (store_svg ⟨[(generate_id "x", "x"), ("cid", "stored")], []⟩ "x" (some "k")).1 = "k"
    ∧ get_svg (store_svg ⟨[(generate_id "x", "x"), ("cid", "stored")], []⟩ "x" (some "k")).2 "k"
        = some "x"
    ∧ store_svg ⟨[(generate_id "x", "x"), ("cid", "stored")], []⟩ "x" none
        = (generate_id "x", ⟨[(generate_id "x", "x"), ("cid", "stored")], []⟩)
    ∧ ((process_render_request testEnv ⟨[(generate_id "x", "x"), ("cid", "stored")], []⟩
          ⟨"ignored", none, none, some "cid"⟩).2).svgs
        = [(generate_id "x", "x"), ("cid", "stored")] :=
  store_svg_overwrite_semantics testEnv ⟨[(generate_id "x", "x"), ("cid", "stored")], []⟩
    ⟨"ignored", none, none, some "cid"⟩ "x" "k" "stored" (by decide) (by decide)

/-- C1 counterexample: storing different text under an id that is already
present replaces the stored SVG text, so the second `store_svg` call is
not a no-op leaving the text unchanged. -/
theorem store_svg_not_noop_counterexample :
    get_svg (store_svg (store_svg SvgManager.new "a" (some "k")).2 "b" (some "k")).2 "k"
        = some "b"
    ∧ get_svg (store_svg SvgManager.new "a" (some "k")).2 "k" = some "a"
    ∧ some "b" ≠ some "a" := by
  decide

/-- C3: the generated ContentId is the first 16 hex characters of the
SHA-256 digest of the SVG bytes (grounded on the FIPS 180-4 test vector
for `"abc"`); storing the same bytes twice without a custom id returns
the same id and leaves the manager unchanged — no second entry. -/
theorem content_id_sha256_determinism (m : SvgManager) (s : String) :
    (store_svg m s none).1 = strTake (sha256Hex (strBytes s)) 16
    ∧ store_svg (store_svg m s none).2 s none = store_svg m s none
    ∧ generate_id "abc" = "ba7816bf8f01cfea" := by
  refine ⟨rfl, ?_, by decide⟩
  unfold store_svg
  simp only [Option.getD]
  rw [mapInsert_of_get_eq _ _ _ (mapGet_insert_self m.svgs (generate_id s) s)]

/-! ## Claims about rendering -/

/-- C2: `render_svg` resolves target dimensions exactly as specified —
both given are used as-is; with one given the other is the given one
scaled by the native aspect ratio, truncated toward zero; with neither
the native dimensions are used — and on a native 100×50 SVG, width 200
yields height 100 and height 25 yields width 50. -/
theorem render_dimension_resolution (env : RasterEnv) (m m2 : SvgManager) (i svg : String)
    (origW origH w h : Nat) (wOpt hOpt : Option Nat) (p : Nat × Nat)
    (hsvg : get_svg m i = some svg)
    (hparse : env.parse svg = Except.ok (origW, origH))
    (hr : render_svg env m i wOpt hOpt = (Except.ok p, m2)) :
    p = resolveSize origW origH wOpt hOpt
    ∧ resolveSize origW origH (some w) (some h) = (w, h)
    ∧ resolveSize origW origH (some w) none = (w, w * origH / origW)
    ∧ resolveSize origW origH none (some h) = (h * origW / origH, h)
    ∧ resolveSize origW origH none none = (origW, origH)
    ∧ (render_svg env100x50 mgr100 "i" (some 200) none).1 = Except.ok (200, 100)
    ∧ (render_svg env100x50 mgr100 "i" none (some 25)).1 = Except.ok (50, 25) := by
  refine ⟨?_, rfl, rfl, rfl, rfl, by decide, by decide⟩
  simp only [render_svg, hsvg, hparse] at hr
  rcases hrs : resolveSize origW origH wOpt hOpt with ⟨tw, th⟩
  rw [hrs] at hr
  dsimp only at hr
  by_cases hpk : env.pixmapOk tw th
  · rw [if_pos hpk] at hr
    rcases hpng : env.encodePng svg tw th with e | png
    · rw [hpng] at hr
      simp at hr
    · rw [hpng] at hr
      simp only [Prod.mk.injEq, Except.ok.injEq] at hr
      rw [← hr.1]
  · rw [if_neg hpk] at hr
    simp at hr

theorem render_dimension_resolution_witness :
    (200, 100) = resolveSize 100 50 (some 200) none
    ∧ resolveSize 100 50 (some 3) (some 4) = (3, 4)
    ∧ resolveSize 100 50 (some 3) none = (3, 3 * 50 / 100)
    ∧ resolveSize 100 50 none (some 4) = (4 * 100 / 50, 4)
    ∧ resolveSize 100 50 none none = (100, 50)
    ∧ (render_svg env100x50 mgr100 "i" (some 200) none).1 = Except.ok (200, 100)
    ∧ (render_svg env100x50 mgr100 "i" none (some 25)).1 = Except.ok (50, 25) :=
  render_dimension_resolution env100x50 mgr100
    ⟨[("i", "svg")], [("i", ⟨[200, 100], 200, 100⟩)]⟩ "i" "svg" 100 50 3 4 (some 200) none
    (200, 100) (by decide) (by decide) (by decide)

/-- C4: the `cached` flag of `process_render_request` reflects exactly
whether the resolved id was already present in the SVG store before the
call (independently of bitmap state and of the requested dimensions):
whenever the call succeeds the flag equals that pre-presence, a first
call on unstored text reports `cached = false`, an immediately repeated
call with the same text and any other dimensions reports `cached = true`,
and a concrete first/second call pair evaluates to `false` then `true`. -/
theorem render_request_cached_flag (env : RasterEnv) (m : SvgManager) (req : RenderRequest)
    (s : String) (w1 h1 w2 h2 : Option Nat)
    (hnew : get_svg m (generate_id s) = none) :
    (process_render_request env m req).1.map RenderResponse.cached
        ≠ Except.ok (!(get_svg m (req.id.getD (generate_id req.svg_data))).isSome)
    ∧ (process_render_request env m ⟨s, w1, h1, none⟩).1.map RenderResponse.cached
        ≠ Except.ok true
    ∧ (process_render_request env (process_render_request env m ⟨s, w1, h1, none⟩).2
        ⟨s, w2, h2, none⟩).1.map RenderResponse.cached ≠ Except.ok false
    ∧ (process_render_request testEnv SvgManager.new ⟨"x", some 3, none, none⟩).1.map
        RenderResponse.cached = Except.ok false
    ∧ (process_render_request testEnv (process_render_request testEnv SvgManager.new
        ⟨"x", some 3, none, none⟩).2 ⟨"x", none, some 7, none⟩).1.map RenderResponse.cached
        = Except.ok true := by
  refine ⟨prr_cached_ne env m req, ?_, ?_, by decide, by decide⟩
  · have h1st := prr_cached_ne env m ⟨s, w1, h1, none⟩
    simpa [hnew] using h1st
  · have hsv : ((process_render_request env m ⟨s, w1, h1, none⟩).2).svgs
        = mapInsert m.svgs (generate_id s) s := by
      rw [prr_svgs]
      simp [hnew]
    have hget : get_svg (process_render_request env m ⟨s, w1, h1, none⟩).2 (generate_id s)
        = some s := by
      unfold get_svg
      rw [hsv]
      exact mapGet_insert_self _ _ _
    have h2nd := prr_cached_ne env (process_render_request env m ⟨s, w1, h1, none⟩).2
      ⟨s, w2, h2, none⟩
    simpa [hget] using h2nd

theorem render_request_cached_flag_witness :
    (process_render_request testEnv SvgManager.new ⟨"y", none, none, none⟩).1.map
        RenderResponse.cached
        ≠ Except.ok (!(get_svg SvgManager.new
            ((none : Option String).getD (generate_id "y"))).isSome)
    ∧ (process_render_request testEnv SvgManager.new ⟨"x", some 3, none, none⟩).1.map
        RenderResponse.cached ≠ Except.ok true
    ∧ (process_render_request testEnv (process_render_request testEnv SvgManager.new
        ⟨"x", some 3, none, none⟩).2 ⟨"x", none, some 7, none⟩).1.map RenderResponse.cached
        ≠ Except.ok false
    ∧ (process_render_request testEnv SvgManager.new ⟨"x", some 3, none, none⟩).1.map
        RenderResponse.cached = Except.ok false
    ∧ (process_render_request testEnv (process_render_request testEnv SvgManager.new
        ⟨"x", some 3, none, none⟩).2 ⟨"x", none, some 7, none⟩).1.map RenderResponse.cached
        = Except.ok true :=
  render_request_cached_flag testEnv SvgManager.new ⟨"y", none, none, none⟩ "x"
    (some 3) none none (some 7) (by decide)

/-- C10: when a render request carries a caller-supplied id that is
already in the SVG store, the call reports `cached = true` whenever it
succeeds, leaves the SVG store unchanged, is entirely independent of the
submitted `svg_data` (even when it differs from the stored text), and
its effect on the bitmap store is exactly that of rendering the
previously stored SVG text under that id. -/
theorem render_request_existing_id_ignores_svg (env : RasterEnv) (m : SvgManager)
    (sdata : String) (rwidth rheight : Option Nat) (i stored d : String)
    (hstored : get_svg m i = some stored) :
    (process_render_request env m ⟨sdata, rwidth, rheight, some i⟩).1.map
        RenderResponse.cached ≠ Except.ok false
    ∧ ((process_render_request env m ⟨sdata, rwidth, rheight, some i⟩).2).svgs = m.svgs
    ∧ process_render_request env m ⟨d, rwidth, rheight, some i⟩
        = process_render_request env m ⟨sdata, rwidth, rheight, some i⟩
    ∧ (process_render_request env m ⟨sdata, rwidth, rheight, some i⟩).2
        = (render_svg env m i rwidth rheight).2 := by
  refine ⟨?_, ?_, ?_, ?_⟩
  · have hne := prr_cached_ne env m ⟨sdata, rwidth, rheight, some i⟩
    simpa [hstored] using hne
  · rw [prr_svgs]
    simp [hstored]
  · simp only [process_render_request]
    simp [hstored]
  · rw [prr_state]
    simp [hstored]

theorem render_request_existing_id_ignores_svg_witness :
    (process_render_request testEnv mgr100 ⟨"other", some 4, none, some "i"⟩).1.map
        RenderResponse.cached ≠ Except.ok false
    ∧ ((process_render_request testEnv mgr100 ⟨"other", some 4, none, some "i"⟩).2).svgs
        = mgr100.svgs
    ∧ process_render_request testEnv mgr100 ⟨"different", some 4, none, some "i"⟩
        = process_render_request testEnv mgr100 ⟨"other", some 4, none, some "i"⟩
    ∧ (process_render_request testEnv mgr100 ⟨"other", some 4, none, some "i"⟩).2
        = (render_svg testEnv mgr100 "i" (some 4) none).2 :=
  render_request_existing_id_ignores_svg testEnv mgr100 "other" (some 4) none "i" "svg"
    "different" (by decide)

/-- C8: `get_bitmap`'s NotFound is distinct from the SVG-not-found case —
`process_get_bitmap_request` fails with the bitmap-not-found error
whenever no bitmap has been rendered for the id, even when the SVG store
holds that id (storing never touches the bitmap store), while
`render_svg` fails with the SVG-not-found error exactly when the id is
absent from the SVG store. -/
theorem bitmap_not_found_separation (m m2 : SvgManager) (i svg s j : String)
    (cid : Option String) (env : RasterEnv) (w h : Option Nat)
    (h1 : get_svg m i = some svg) (h2 : get_bitmap m i = none) :
    process_get_bitmap_request m ⟨i⟩ = Except.error MErr.bitmapNotFound
    ∧ ((store_svg m2 s cid).2).bitmaps = m2.bitmaps
    ∧ (((render_svg env m2 j w h).1 = Except.error MErr.svgNotFound) ↔ get_svg m2 j = none) := by
  refine ⟨?_, rfl, ?_⟩
  · unfold process_get_bitmap_request
    rw [h2]
  · rcases hg : get_svg m2 j with _ | sv
    · simp [render_svg, hg]
    · simp only [render_svg, hg]
      rcases hp : env.parse sv with e | pr
      · simp [hp]
      · obtain ⟨ow, oh⟩ := pr
        simp only [hp]
        rcases hrs : resolveSize ow oh w h with ⟨tw, th⟩
        by_cases hpk : env.pixmapOk tw th
        · rcases hpng : env.encodePng sv tw th with e | png <;> simp [hrs, hpk, hpng]
        · simp [hrs, hpk]

theorem bitmap_not_found_separation_witness :
    process_get_bitmap_request mgr100 ⟨"i"⟩ = Except.error MErr.bitmapNotFound
    ∧ ((store_svg mgr100 "t" (some "j")).2).bitmaps = mgr100.bitmaps
    ∧ (((render_svg testEnv mgr100 "absent" none none).1 = Except.error MErr.svgNotFound)
        ↔ get_svg mgr100 "absent" = none) :=
  bitmap_not_found_separation mgr100 mgr100 "i" "svg" "t" "absent" (some "j") testEnv
    none none (by decide) (by decide)

/-! ## Claims about the job queue -/

theorem tokOf_okHandle (t : Nat) : tokOf (okHandle t) = t := rfl

theorem join_all_all_ok (handles : List (Except String (Except String Nat)))
    (hall : ∀ h ∈ handles, ∃ t, h = okHandle t) :
    join_all handles = (handles.map tokOf, none) := by
  induction handles with
  | nil => rfl
  | cons h rest ih =>
    obtain ⟨t, rfl⟩ := hall h (List.mem_cons_self h rest)
    have hrest := ih (fun h2 hm => hall h2 (List.mem_cons_of_mem _ hm))
    simp [join_all, okHandle, tokOf, hrest]

/-- C5 (corrected): when all submitted jobs finished SUCCESSFULLY,
`join_all` delivers exactly N results with each continuation token
appearing exactly once (a permutation of the submitted tokens),
regardless of completion order.  (The unconditional form of the claim is
false: a failed job aborts the drain — see the counterexample.) -/
theorem join_all_delivery (jobs : List Nat)
    (handles : List (Except String (Except String Nat)))
    (hperm : handles.Perm (jobs.map okHandle)) :
    (join_all handles).2 = none
    ∧ (join_all handles).1.Perm jobs
    ∧ (join_all handles).1.length = jobs.length := by
  have hall : ∀ h ∈ handles, ∃ t, h = okHandle t := by
    intro h hm
    obtain ⟨t, _, rfl⟩ := List.mem_map.mp (hperm.mem_iff.mp hm)
    exact ⟨t, rfl⟩
  have hj := join_all_all_ok handles hall
  have hmapped : (handles.map tokOf).Perm ((jobs.map okHandle).map tokOf) := hperm.map tokOf
  rw [List.map_map] at hmapped
  have hid : jobs.map (tokOf ∘ okHandle) = jobs := by
    simp [Function.comp_def, tokOf_okHandle]
  rw [hid] at hmapped
  rw [hj]
  exact ⟨rfl, hmapped, hmapped.length_eq⟩

theorem join_all_delivery_witness :
    (join_all [okHandle 7, okHandle 5, okHandle 5]).2 = none
    ∧ (join_all [okHandle 7, okHandle 5, okHandle 5]).1.Perm [5, 7, 5]
    ∧ (join_all [okHandle 7, okHandle 5, okHandle 5]).1.length = [5, 7, 5].length :=
  join_all_delivery [5, 7, 5] [okHandle 7, okHandle 5, okHandle 5] (by decide)

/-- C5 counterexample: with three finished jobs of which the middle one
failed, `join_all` delivers only one result and aborts with the job's
error — token 2 never appears, so the unconditional exactly-N,
exactly-once delivery claim is false. -/
theorem join_all_abort_counterexample :
    join_all [okHandle 1, Except.ok (Except.error "job failed"), okHandle 2]
        = ([1], some "job failed")
    ∧ (join_all [okHandle 1, Except.ok (Except.error "job failed"), okHandle 2]).1.length ≠ 3
    ∧ (join_all [okHandle 1, Except.ok (Except.error "job failed"), okHandle 2]).1.count 2
        = 0 := by
  decide

/-! ## Claims about the helper-process supervisor -/

/-- C9 (corrected): `ensure_process_started` is a no-op while a process
is alive and spawns one otherwise; a spawn failure is an error; a
successfully read stderr line lacking the acknowledgment phrase is a
startup error, and one containing it is a successful start — but when
reading the stderr line itself FAILS, the acknowledgment check is
silently skipped and the process is treated as started, so the original
"fails whenever the acknowledgment is not observed" is false (see the
counterexample). -/
theorem ensure_process_started_semantics (env : NodeEnv) (st : NodeState) (line : String) :
    (st.process = true → ensure_process_started env st = Except.ok st)
    ∧ (st.process = false → env.spawnOk = false →
        ensure_process_started env st = Except.error "Failed to start Node.js server process")
    ∧ (st.process = false → env.spawnOk = true → env.stderrPiped = true →
        env.readLineResult = Except.ok line →
        strContains line "Running in stdio mode" = true →
        ensure_process_started env st = Except.ok ⟨true⟩)
    ∧ (st.process = false → env.spawnOk = true → env.stderrPiped = true →
        env.readLineResult = Except.ok line →
        strContains line "Running in stdio mode" = false →
        ensure_process_started env st
          = Except.error ("Unexpected output from Node.js server: " ++ line))
    ∧ (st.process = false → env.spawnOk = true → env.stderrPiped = true →
        env.readLineResult.isOk = false → ensure_process_started env st = Except.ok ⟨true⟩) := by
  obtain ⟨spawn, piped, rl⟩ := env
  obtain ⟨pr⟩ := st
  refine ⟨?_, ?_, ?_, ?_, ?_⟩
  · intro hp
    simp only at hp
    simp [ensure_process_started, hp]
  · intro hp hs
    simp only at hp hs
    simp [ensure_process_started, hp, hs]
  · intro hp hs hpd hrl hc
    simp only at hp hs hpd hrl
    subst hrl
    simp [ensure_process_started, hp, hs, hpd, hc]
  · intro hp hs hpd hrl hc
    simp only at hp hs hpd hrl
    subst hrl
    simp [ensure_process_started, hp, hs, hpd, hc]
  · intro hp hs hpd hrl
    simp only at hp hs hpd hrl
    cases rl with
    | ok l => simp [Except.isOk, Except.toBool] at hrl
    | error e => simp [ensure_process_started, hp, hs, hpd]

theorem ensure_process_started_semantics_witness :
    ensure_process_started ⟨true, true, Except.ok "Running in stdio mode"⟩ ⟨true⟩
        = Except.ok ⟨true⟩
    ∧ ensure_process_started ⟨false, true, Except.ok "x"⟩ ⟨false⟩
        = Except.error "Failed to start Node.js server process"
    ∧ ensure_process_started ⟨true, true, Except.ok "Running in stdio mode"⟩ ⟨false⟩
        = Except.ok ⟨true⟩
    ∧ ensure_process_started ⟨true, true, Except.ok "bad"⟩ ⟨false⟩
        = Except.error ("Unexpected output from Node.js server: " ++ "bad") :=
  ⟨(ensure_process_started_semantics ⟨true, true, Except.ok "Running in stdio mode"⟩
      ⟨true⟩ "").1 rfl,
   (ensure_process_started_semantics ⟨false, true, Except.ok "x"⟩ ⟨false⟩ "").2.1 rfl rfl,
   (ensure_process_started_semantics ⟨true, true, Except.ok "Running in stdio mode"⟩
      ⟨false⟩ "Running in stdio mode").2.2.1 rfl rfl rfl rfl (by decide),
   (ensure_process_started_semantics ⟨true, true, Except.ok "bad"⟩
      ⟨false⟩ "bad").2.2.2.1 rfl rfl rfl rfl (by decide)⟩

/-- C9 counterexample: when `read_line` on the stderr pipe fails, the
acknowledgment is not observed, yet startup succeeds instead of failing
with a startup error. -/
theorem ensure_process_started_readfail_counterexample :
    ensure_process_started ⟨true, true, Except.error "broken pipe"⟩ ⟨false⟩
        = Except.ok ⟨true⟩ := by
  decide

end Svgear
